import Mathlib

/-!
Shallow embedding of `pytroll_runner/__init__.py` (pytroll/pytroll-runner).

Python dictionaries are modelled as association lists (`Dict`), Python
exceptions as an explicit `PyError` value threaded through `Except`.
External effects are modelled as oracle parameters:
  * `findall : String → String → List String` models `re.findall` (the
    regex engine is the Python standard library, outside this repository);
  * `fs : Nat → String → List String` models `glob.glob`: `fs t pat` is the
    scan result of pattern `pat` at time `t`; every call to the glob advances
    the global time counter by one, so "a fresh scan" is a scan at a later time;
  * `proc : String → List Value → List String` models the child process
    spawned by `Popen`: given the resolved command string and the positional
    file arguments it yields the lines of the combined stdout/stderr stream,
    exactly as Python's line iteration over `process.stdout` yields them.
Byte strings are modelled as `String` (UTF-8 decoding `str(b, "utf-8")` is the
identity on the model); `None` as `Option.none`.
-/

/-- Python values stored in message metadata: strings, nested dicts, lists. -/
inductive Value where
  | str : String → Value
  | vdict : List (String × Value) → Value
  | vlist : List Value → Value

/-- A Python dict, modelled as an association list (insertion ordered,
keys unique in any dict actually built by the code). -/
abbrev Dict := List (String × Value)

/-- Python `d[k]` / `d.get(k)`: first binding of `k`. -/
def dget : Dict → String → Option Value
  | [], _ => none
  | (k', v) :: d, k => if k = k' then some v else dget d k

/-- Python `d.pop(k, None)`: remove the binding of `k`. -/
def dremove : Dict → String → Dict
  | [], _ => []
  | (k', v) :: d, k => if k' = k then dremove d k else (k', v) :: dremove d k

/-- Python `d[k] = v`: replace in place if the key exists, else append. -/
def dset : Dict → String → Value → Dict
  | [], k, v => [(k, v)]
  | (k', v') :: d, k, v => if k' = k then (k, v) :: d else (k', v') :: dset d k v

/-- Python `d.update(e)`: set every binding of `e` into `d`, in order. -/
def dupdate (d e : Dict) : Dict :=
  e.foldl (fun acc kv => dset acc kv.1 kv.2) d

/-- The Python exceptions the runner can raise while processing messages. -/
inductive PyError where
  | keyError : String → PyError
  | fileNotFoundError : PyError
  | typeError : PyError
deriving DecidableEq, Repr

/-- A posttroll message: subject (topic), type and data dict. -/
structure Msg where
  subject : String
  mtype : String
  data : Dict

/-- One piece of a Python format string: literal text or a named placeholder. -/
inductive TemplatePart where
  | lit : String → TemplatePart
  | field : String → TemplatePart
deriving DecidableEq, Repr

/-- A command template (`command.format(**metadata)` operates on its parts). -/
abbrev Template := List TemplatePart

/-- Rendering of a metadata value interpolated into a command string.
Only string values occur in the command templates the claims are about;
rendering of structured values abstracts Python's `str()`. -/
def vrender : Value → String
  | .str s => s
  | _ => ""

/-- Python `template.format(**metadata)`: substitute each named placeholder
by its metadata value; a placeholder whose key is absent raises `KeyError`. -/
def pyformat (t : Template) (metadata : Dict) : Except PyError String :=
  t.foldlM
    (fun acc p =>
      match p with
      | .lit s => .ok (acc ++ s)
      | .field k =>
        match dget metadata k with
        | some v => .ok (acc ++ vrender v)
        | none => .error (.keyError k))
    ""

/-- The `output_files_log_regex` config entry: a single regex or a list. -/
inductive RegexSpec where
  | single : String → RegexSpec
  | list : List String → RegexSpec
deriving DecidableEq, Repr

/-- The `publisher_config` section of the configuration, with the optional
keys as `Option` (absent key = `none`; `static_metadata` defaults to `{}`
and `split_files` to a falsy `None` through `.get`). -/
structure PublisherConfig where
  expected_files : Option String
  output_files_log_regex : Option RegexSpec
  split_files : Option Bool
  static_metadata : Dict
  topic : String

/-- Source `run_on_files(command, files)`: an empty file list returns `None`
without spawning the child; otherwise the child is spawned and its combined
stdout/stderr lines are accumulated as a newline byte followed by the line. -/
def run_on_files (proc : String → List Value → List String)
    (command : String) (files : List Value) : Option String :=
  if files.isEmpty then none
  else some ((proc command files).foldl (fun out line => out ++ "\n" ++ line) "")

/-- Source `get_command_to_call(command, metadata)`: the command string (from
the `script` entry or its `command` sub-key) formatted against `metadata`. -/
def get_command_to_call (command : Template) (metadata : Dict) : Except PyError String :=
  pyformat command metadata

/-- File-list resolution for a dataset message: `info["uri"] for info in dataset`.
A non-dict entry or an entry without `uri` raises, as in Python. -/
def resolve_dataset_files : List Value → Except PyError (List Value)
  | [] => .ok []
  | .vdict d :: rest =>
    match dget d "uri" with
    | some v => (resolve_dataset_files rest).map (fun fs => v :: fs)
    | none => .error (.keyError "uri")
  | _ :: _ => .error .typeError

/-- Source `run_on_single_message(command, message)`: pop `uri` (file) or
`dataset` (dataset) from a copy of the metadata, resolve the command string
against the remaining metadata, run it on the files, and return the captured
output paired with the full original message data. -/
def run_on_single_message (proc : String → List Value → List String)
    (command : Template) (m : Msg) : Except PyError (Option String × Dict) :=
  match dget m.data "uri" with
  | some v =>
    match get_command_to_call command (dremove m.data "uri") with
    | .ok c => .ok (run_on_files proc c [v], m.data)
    | .error e => .error e
  | none =>
    match dget m.data "dataset" with
    | none => .error (.keyError "dataset")
    | some (.vlist entries) =>
      match resolve_dataset_files entries with
      | .ok files =>
        match get_command_to_call command (dremove m.data "dataset") with
        | .ok c => .ok (run_on_files proc c files, m.data)
        | .error e => .error e
      | .error e => .error e
    | some _ => .error .typeError

/-- Source `_get_newfiles_from_regex(regex, log_output)`: decode the captured
output and apply `re.findall`. `str(None, "utf-8")` raises `TypeError`. -/
def get_newfiles_from_regex (findall : String → String → List String)
    (regex : String) (log_output : Option String) : Except PyError (List String) :=
  match log_output with
  | none => .error .typeError
  | some s => .ok (findall regex s)

/-- Source `get_newfiles_from_regex_and_logoutput(regex, log_output)`: a list
of regexes is folded left, appending each regex's matches in turn. -/
def get_newfiles_from_regex_and_logoutput (findall : String → String → List String)
    (regex : RegexSpec) (log_output : Option String) : Except PyError (List String) :=
  match regex with
  | .list rs =>
    rs.foldlM (fun acc rex =>
      (get_newfiles_from_regex findall rex log_output).map (fun nfiles => acc ++ nfiles)) []
  | .single rex => get_newfiles_from_regex findall rex log_output

/-- Source `os.path.basename`: the part of the path after the last slash. -/
def basename (p : String) : String :=
  ((p.toList.reverse.takeWhile (fun c => c != '/')).reverse).asString

/-- Boolean lexicographic comparison of character lists, code point by code
point: the order Python uses to compare strings. -/
def charsLe : List Char → List Char → Bool
  | [], _ => true
  | _ :: _, [] => false
  | a :: as, b :: bs => if a = b then charsLe as bs else decide (a < b)

/-- Python `a <= b` on strings. -/
def str_le (a b : String) : Bool :=
  charsLe a.toList b.toList

/-- Insert a path into an ascending list, before the first not-smaller entry. -/
def pyinsert (x : String) : List String → List String
  | [] => [x]
  | y :: ys => if str_le x y then x :: y :: ys else y :: pyinsert x ys

/-- Python `sorted` on a list of paths: ascending insertion sort. -/
def pysorted : List String → List String
  | [] => []
  | x :: xs => pyinsert x (pysorted xs)

/-- Source `populate_metadata(extra_metadata, static_metadata)`: start from an
empty dict, merge the extra (triggering) metadata if not `None`, drop `uri`,
`uid` and `dataset` from it, then overlay the static metadata. -/
def populate_metadata (extra_metadata : Option Dict) (static_metadata : Dict) : Dict :=
  let metadata : Dict := []
  let metadata :=
    match extra_metadata with
    | none => metadata
    | some e => dremove (dremove (dremove (dupdate metadata e) "uri") "uid") "dataset"
  dupdate metadata static_metadata

/-- One `dict(uid=basename(filepath), uri=filepath)` dataset entry. -/
def mkEntry (filepath : String) : List (String × Value) :=
  [("uid", .str (basename filepath)), ("uri", .str filepath)]

/-- Source `generate_message_from_new_files(pub_config, new_files, extra_metadata)`:
raise `FileNotFoundError` on an empty list; otherwise build the dataset entries
from the sorted files and emit a "file" message (single file, `uid`/`uri`
merged into the metadata) or a "dataset" message (all entries). -/
def generate_message_from_new_files (pub_config : PublisherConfig)
    (new_files : List String) (extra_metadata : Option Dict) : Except PyError Msg :=
  if new_files.isEmpty then .error .fileNotFoundError
  else
    let metadata := populate_metadata extra_metadata pub_config.static_metadata
    let dataset := (pysorted new_files).map mkEntry
    if new_files.length == 1 then
      .ok ⟨pub_config.topic, "file", dupdate metadata (dataset.headD [])⟩
    else
      .ok ⟨pub_config.topic, "dataset", dset metadata "dataset" (.vlist (dataset.map .vdict))⟩

/-- Source `generate_message_from_log_output(publisher_config, mda, log_output)`:
read the regex config (raising `KeyError` when absent), extract the new files
from the log output, and compose one message per file when `split_files` is
truthy and more than one file matched, else one message for all files. -/
def generate_message_from_log_output (findall : String → String → List String)
    (publisher_config : PublisherConfig) (mda : Option Dict) (log_output : Option String) :
    Except PyError (List Msg) :=
  match publisher_config.output_files_log_regex with
  | none => .error (.keyError "output_files_log_regex")
  | some regex =>
    match get_newfiles_from_regex_and_logoutput findall regex log_output with
    | .error e => .error e
    | .ok new_files =>
      if 1 < new_files.length && publisher_config.split_files.getD false then
        new_files.mapM (fun newfile =>
          generate_message_from_new_files publisher_config [newfile] mda)
      else
        (generate_message_from_new_files publisher_config new_files mda).map (fun m => [m])

/-- Source `check_existing_files(publisher_config)`: glob the `expected_files`
pattern (defaulting to the empty pattern); `scan` is the glob at one instant. -/
def check_existing_files (scan : String → List String) (publisher_config : PublisherConfig) :
    List String :=
  scan (publisher_config.expected_files.getD "")

/-- Source `find_new_files(pub_config, preexisting_files)`: current scan minus
the baseline set. -/
def find_new_files (scan : String → List String) (pub_config : PublisherConfig)
    (preexisting_files : List String) : List String :=
  (check_existing_files scan pub_config).filter (fun f => f ∉ preexisting_files)

/-- Source `generate_message_from_expected_files(pub_config, extra_metadata,
preexisting_files)`: message for the diff of one fresh scan against the
baseline (`None` baseline is replaced by the empty set). -/
def generate_message_from_expected_files (scan : String → List String)
    (pub_config : PublisherConfig) (extra_metadata : Option Dict)
    (preexisting_files : Option (List String)) : Except PyError Msg :=
  generate_message_from_new_files pub_config
    (find_new_files scan pub_config (preexisting_files.getD [])) extra_metadata

/-- Source `generate_message(publisher_config, mda, log_output, preexisting_files)`:
try pattern detection first; on `KeyError` (no regex configured) fall back to
the snapshot diff against the baseline and refresh the baseline with a second,
fresh glob scan. `fs t` is the glob at time `t`; the returned counter records
how many scans were consumed, so the refresh scan (`fs (t+1)`) is taken after
the detection scan (`fs t`). A `FileNotFoundError` of the snapshot path leaves
the refresh line unexecuted, exactly as the raised exception does in Python. -/
def generate_message (findall : String → String → List String)
    (fs : Nat → String → List String) (t : Nat) (publisher_config : PublisherConfig)
    (mda : Option Dict) (log_output : Option String) (preexisting_files : List String) :
    Except PyError (List Msg × List String) × Nat :=
  match generate_message_from_log_output findall publisher_config mda log_output with
  | .ok messages => (.ok (messages, preexisting_files), t)
  | .error (.keyError _) =>
    match generate_message_from_expected_files (fs t) publisher_config mda
        (some preexisting_files) with
    | .ok message => (.ok ([message], check_existing_files (fs (t + 1)) publisher_config), t + 2)
    | .error e => (.error e, t + 1)
  | .error e => (.error e, t)

/-- State threaded through the `run_and_publish` loop: the glob time counter,
the `preexisting_files` baseline, and the messages sent so far. -/
structure DriverState where
  t : Nat
  preexisting : List String
  published : List Msg

/-- One iteration of the `for log_output, mda in gen` loop body of
`run_and_publish`: generate the messages, publish them and carry the refreshed
baseline forward; a `FileNotFoundError` is caught and everything else
propagates out of the loop. -/
def process_one (findall : String → String → List String)
    (fs : Nat → String → List String) (publisher_config : PublisherConfig)
    (st : DriverState) (res : Option String × Dict) : Except PyError DriverState :=
  match generate_message findall fs st.t publisher_config (some res.2) res.1 st.preexisting with
  | (.ok (messages, preexisting), t') => .ok ⟨t', preexisting, st.published ++ messages⟩
  | (.error .fileNotFoundError, t') => .ok ⟨t', st.preexisting, st.published⟩
  | (.error e, _) => .error e

/-- Source `select_messages(messages)` predicate: only "file" and "dataset"
messages are accepted. -/
def accepted_message (m : Msg) : Bool :=
  m.mtype == "file" || m.mtype == "dataset"

/-- The driver pipeline of `run_and_publish` over a finite message list, at
the default `workers = 1` (sequential) concurrency: selected messages are run
through `run_on_single_message` and each result through the publish loop body.
An exception raised while producing a result surfaces at the `for` statement,
outside the `try`, and therefore terminates the whole loop. -/
def run_and_publish_loop (findall : String → String → List String)
    (fs : Nat → String → List String) (proc : String → List Value → List String)
    (command : Template) (publisher_config : PublisherConfig) :
    List Msg → DriverState → Except PyError DriverState
  | [], st => .ok st
  | m :: rest, st =>
    if accepted_message m then
      match run_on_single_message proc command m with
      | .error e => .error e
      | .ok res =>
        match process_one findall fs publisher_config st res with
        | .error e => .error e
        | .ok st' => run_and_publish_loop findall fs proc command publisher_config rest st'
    else run_and_publish_loop findall fs proc command publisher_config rest st

/-- The list of artifact paths a composed message announces: the single `uri`
for a "file" message, the `uri` of each dataset entry for a "dataset" message. -/
def msgFiles (m : Msg) : List String :=
  if m.mtype == "file" then
    match dget m.data "uri" with
    | some (.str f) => [f]
    | _ => []
  else
    match dget m.data "dataset" with
    | some (.vlist entries) =>
      entries.filterMap (fun v =>
        match v with
        | .vdict d =>
          match dget d "uri" with
          | some (.str f) => some f
          | _ => none
        | _ => none)
    | _ => []

/-! Helper lemmas about the dict model. -/

/-- A key absent from the key list looks up to `none`. -/
theorem dget_eq_none_of_not_mem (d : Dict) (k : String) (h : k ∉ d.map Prod.fst) :
    dget d k = none := by
  induction d with
  | nil => rfl
  | cons kv d ih =>
    obtain ⟨k0, v0⟩ := kv
    simp only [List.map_cons, List.mem_cons] at h
    push_neg at h
    simp only [dget, if_neg h.1]
    exact ih h.2

/-- Lookup after `d[k] = v`: the new value at `k`, unchanged elsewhere. -/
theorem dget_dset (d : Dict) (k : String) (v : Value) (k' : String) :
    dget (dset d k v) k' = if k' = k then some v else dget d k' := by
  induction d with
  | nil => simp [dset, dget]
  | cons kv d ih =>
    obtain ⟨k0, v0⟩ := kv
    simp only [dset]
    by_cases h0 : k0 = k
    · rw [if_pos h0]
      subst h0
      simp only [dget]
      by_cases h' : k' = k0
      · simp [h']
      · simp [h']
    · rw [if_neg h0]
      simp only [dget, ih]
      by_cases h' : k' = k0
      · have hkne : ¬ k' = k := fun hc => h0 (h'.symm.trans hc)
        simp [h', hkne, h0]
      · simp [h']

/-- Lookup after `d.pop(k)`: `none` at `k`, unchanged elsewhere. -/
theorem dget_dremove (d : Dict) (k k' : String) :
    dget (dremove d k) k' = if k' = k then none else dget d k' := by
  induction d with
  | nil => simp [dremove, dget]
  | cons kv d ih =>
    obtain ⟨k0, v0⟩ := kv
    simp only [dremove]
    by_cases h0 : k0 = k
    · rw [if_pos h0, ih]
      subst h0
      simp only [dget]
      by_cases h' : k' = k0
      · simp [h']
      · simp [h']
    · rw [if_neg h0]
      simp only [dget, ih]
      by_cases h' : k' = k0
      · have hkne : ¬ k' = k := fun hc => h0 (h'.symm.trans hc)
        simp [h', hkne, h0]
      · simp [h']

/-- Lookup after `d.update(e)` for a dict `e` (unique keys): bindings of `e`
win, anything else falls through to `d`. -/
theorem dget_dupdate (d e : Dict) (k : String) (h : (e.map Prod.fst).Nodup) :
    dget (dupdate d e) k =
      match dget e k with
      | some v => some v
      | none => dget d k := by
  induction e generalizing d with
  | nil => simp [dupdate, dget]
  | cons kv e ih =>
    obtain ⟨k0, v0⟩ := kv
    simp only [List.map_cons, List.nodup_cons] at h
    have step : dupdate d ((k0, v0) :: e) = dupdate (dset d k0 v0) e := rfl
    rw [step, ih _ h.2]
    by_cases hk : k = k0
    · subst hk
      rw [dget_eq_none_of_not_mem e k h.1]
      simp [dget, dget_dset]
    · simp [dget, hk, dget_dset]

/-! Helper lemmas about the Python string order and `sorted`. -/

/-- `charsLe` agrees with the negation of the reverse lexicographic strict
order on character lists. -/
theorem charsLe_iff (as bs : List Char) :
    charsLe as bs = true ↔ ¬ List.Lex (· < ·) bs as := by
  induction as generalizing bs with
  | nil =>
    cases bs <;> simp [charsLe, List.Lex.not_nil_right]
  | cons a as ih =>
    cases bs with
    | nil =>
      simp only [charsLe, Bool.false_eq_true, false_iff, not_not]
      exact List.Lex.nil
    | cons b bs =>
      by_cases hab : a = b
      · subst hab
        simp only [charsLe, eq_self_iff_true, if_true]
        rw [ih]
        constructor
        · intro h hl
          cases hl with
          | rel hr => exact absurd hr (lt_irrefl a)
          | cons hl => exact h hl
        · intro h hl
          exact h (List.Lex.cons hl)
      · simp only [charsLe, if_neg hab, decide_eq_true_eq]
        constructor
        · intro h hl
          cases hl with
          | rel hr => exact absurd (hr.trans h) (lt_irrefl b)
          | cons hl => exact hab rfl
        · intro h
          rcases lt_trichotomy a b with h1 | h1 | h1
          · exact h1
          · exact absurd h1 hab
          · exact absurd (List.Lex.rel h1) h

/-- `str_le` is the standard linear order on `String`. -/
theorem str_le_true_iff (a b : String) : str_le a b = true ↔ a ≤ b := by
  rw [str_le, charsLe_iff, String.le_iff_toList_le]
  exact @not_lt (List Char) _ b.toList a.toList

/-- Membership in `pyinsert`. -/
theorem mem_pyinsert (x a : String) (l : List String) :
    a ∈ pyinsert x l ↔ a = x ∨ a ∈ l := by
  induction l with
  | nil => simp [pyinsert]
  | cons y ys ih =>
    simp only [pyinsert]
    split
    · simp [List.mem_cons]
    · simp only [List.mem_cons, ih]
      tauto

/-- `pyinsert` permutes the cons. -/
theorem pyinsert_perm (x : String) (l : List String) :
    (pyinsert x l).Perm (x :: l) := by
  induction l with
  | nil => exact List.Perm.refl _
  | cons y ys ih =>
    simp only [pyinsert]
    split
    · exact List.Perm.refl _
    · exact (ih.cons y).trans (List.Perm.swap x y ys)

/-- `pysorted` is a permutation of its input. -/
theorem pysorted_perm (l : List String) : (pysorted l).Perm l := by
  induction l with
  | nil => exact List.Perm.refl _
  | cons x xs ih =>
    exact (pyinsert_perm x (pysorted xs)).trans (ih.cons x)

/-- Inserting into an ascending list keeps it ascending. -/
theorem pyinsert_sorted (x : String) (l : List String)
    (h : List.Sorted (· ≤ ·) l) : List.Sorted (· ≤ ·) (pyinsert x l) := by
  induction l with
  | nil => simp [pyinsert]
  | cons y ys ih =>
    simp only [pyinsert]
    by_cases hxy : str_le x y = true
    · rw [if_pos hxy]
      have hx : x ≤ y := (str_le_true_iff x y).mp hxy
      rw [List.sorted_cons]
      refine ⟨?_, h⟩
      intro b hb
      rcases List.mem_cons.mp hb with rfl | hb
      · exact hx
      · exact hx.trans ((List.sorted_cons.mp h).1 b hb)
    · rw [if_neg hxy]
      have hyx : y ≤ x := le_of_not_le (fun hc => hxy ((str_le_true_iff x y).mpr hc))
      rw [List.sorted_cons] at h ⊢
      obtain ⟨hy, hys⟩ := h
      refine ⟨?_, ih hys⟩
      intro b hb
      rcases (mem_pyinsert x b ys).mp hb with rfl | hb
      · exact hyx
      · exact hy b hb

/-- `pysorted` returns an ascending list. -/
theorem pysorted_sorted (l : List String) : List.Sorted (· ≤ ·) (pysorted l) := by
  induction l with
  | nil => simp [pysorted]
  | cons x xs ih => exact pyinsert_sorted x (pysorted xs) ih

/-! Helper lemmas about the monadic folds. -/

/-- A `mapM` whose body never raises is a plain `map`. -/
theorem mapM_ok {α β ε : Type} (g : α → β) (l : List α) :
    l.mapM (fun a => (Except.ok (g a) : Except ε β)) = .ok (l.map g) := by
  induction l with
  | nil => rfl
  | cons a l ih =>
    rw [List.mapM_cons, ih]
    rfl

/-- On a real (decoded) log output the regex-list fold never raises and
appends the per-pattern matches in pattern order. -/
theorem foldl_regex_ok (findall : String → String → List String)
    (rs : List String) (s : String) (acc : List String) :
    (rs.foldlM (fun acc rex =>
        (get_newfiles_from_regex findall rex (some s)).map (fun nfiles => acc ++ nfiles)) acc
      : Except PyError (List String))
    = .ok (acc ++ (rs.map (fun rex => findall rex s)).flatten) := by
  induction rs generalizing acc with
  | nil =>
    show (Except.ok acc : Except PyError (List String)) = _
    simp
  | cons r rs ih =>
    show (rs.foldlM (fun acc rex =>
        (get_newfiles_from_regex findall rex (some s)).map (fun nfiles => acc ++ nfiles))
        (acc ++ findall r s) : Except PyError (List String)) = _
    rw [ih]
    simp [List.append_assoc]

/-- `String.join` distributes over cons. -/
theorem join_cons (x : String) (xs : List String) :
    String.join (x :: xs) = x ++ String.join xs := by
  rw [← String.toList_inj]
  simp [String.toList, String.data_join]

/-- Prefixing every line with a newline adds one character per line. -/
theorem join_newline_length (ls : List String) :
    (String.join (ls.map (fun l => "\n" ++ l))).length
      = ls.length + (String.join ls).length := by
  induction ls with
  | nil => rfl
  | cons l t ih =>
    have h1 : ("\n" : String).length = 1 := rfl
    rw [List.map_cons, join_cons, join_cons, String.length_append, String.length_append,
      String.length_append, ih, h1]
    simp only [List.length_cons]
    omega

/-- The accumulation loop of `run_on_files` expressed as a join of the
newline-prefixed lines. -/
theorem foldl_newline (lines : List String) (acc : String) :
    lines.foldl (fun out line => out ++ "\n" ++ line) acc
      = acc ++ String.join (lines.map (fun line => "\n" ++ line)) := by
  induction lines generalizing acc with
  | nil => simp [String.join, String.append_empty]
  | cons l ls ih =>
    rw [List.foldl_cons, ih, List.map_cons, join_cons]
    simp [String.append_assoc]

/-- C9: In Pattern mode the detected file list is the concatenation, in
pattern-list order, of all matches each regular expression finds in the
decoded output, preserving per-pattern match order (pattern order outermost):
the regex-list fold of `get_newfiles_from_regex_and_logoutput` equals the
flattened per-pattern match lists. -/
theorem pattern_matches_in_pattern_order
    (findall : String → String → List String) (rs : List String) (s : String) :
    get_newfiles_from_regex_and_logoutput findall (.list rs) (some s)
      = .ok ((rs.map (fun rex => findall rex s)).flatten) := by
  show (rs.foldlM (fun acc rex =>
      (get_newfiles_from_regex findall rex (some s)).map (fun nfiles => acc ++ nfiles)) []
    : Except PyError (List String)) = _
  rw [foldl_regex_ok]
  simp

/-- C10: for a non-empty file list the captured output is the concatenation,
over the lines of the child process's combined stdout/stderr stream, of a
newline byte followed by that line; in particular for a child that produced
at least one line the captured bytes differ from the child's raw stream. -/
theorem run_on_files_prepends_newlines
    (proc : String → List Value → List String) (command : String)
    (files : List Value) (h : files ≠ []) :
    run_on_files proc command files
        = some (String.join ((proc command files).map (fun line => "\n" ++ line)))
      ∧ (proc command files ≠ [] →
          run_on_files proc command files ≠ some (String.join (proc command files))) := by
  have hne : files.isEmpty = false := by
    cases files with
    | nil => exact absurd rfl h
    | cons a l => rfl
  constructor
  · rw [run_on_files, hne]
    rw [foldl_newline, String.empty_append]
    rfl
  · intro hl hc
    rw [run_on_files, hne] at hc
    simp only [Bool.false_eq_true, if_false, Option.some.injEq] at hc
    rw [foldl_newline, String.empty_append] at hc
    have := congrArg String.length hc
    rw [join_newline_length] at this
    have h0 : (proc command files).length = 0 := by omega
    exact hl (List.length_eq_zero.mp h0)

/-- C10 witness: a concrete two-line child stream, captured with a newline
before every line and different from the raw stream. -/
theorem run_on_files_prepends_newlines_witness :
    run_on_files (fun _ _ => ["a\n", "b\n"]) "c" [.str "f"]
        = some (String.join (["a\n", "b\n"].map (fun line => "\n" ++ line)))
      ∧ (["a\n", "b\n"] ≠ ([] : List String) →
          run_on_files (fun _ _ => ["a\n", "b\n"]) "c" [.str "f"]
            ≠ some (String.join ["a\n", "b\n"])) :=
  run_on_files_prepends_newlines (fun _ _ => ["a\n", "b\n"]) "c" [.str "f"] (by simp)

/-- C7: the metadata produced by `populate_metadata` is the propagated
metadata with `uri`, `uid` and `dataset` removed, overlaid by the static
metadata; on a key present in both, the static value wins. -/
theorem populate_metadata_strips_and_overlays
    (extra static : Dict)
    (hex : (extra.map Prod.fst).Nodup) (hst : (static.map Prod.fst).Nodup)
    (k : String) :
    dget (populate_metadata (some extra) static) k =
      match dget static k with
      | some v => some v
      | none =>
        if k = "uri" ∨ k = "uid" ∨ k = "dataset" then none
        else dget extra k := by
  unfold populate_metadata
  rw [dget_dupdate _ _ _ hst, dget_dremove, dget_dremove, dget_dremove,
    dget_dupdate _ _ _ hex]
  cases dget static k with
  | some v => rfl
  | none =>
    by_cases h1 : k = "uri" <;> by_cases h2 : k = "uid" <;> by_cases h3 : k = "dataset" <;>
      simp [h1, h2, h3] <;> cases dget extra k <;> simp [dget]

/-- C7 witness: static metadata overrides a colliding key, the three reserved
keys of the propagated metadata are dropped, other propagated keys survive. -/
theorem populate_metadata_strips_and_overlays_witness :
    dget (populate_metadata
        (some [("a", .str "E"), ("uri", .str "U"), ("uid", .str "I"), ("b", .str "B")])
        [("a", .str "S")]) "a" =
      match dget [("a", Value.str "S")] "a" with
      | some v => some v
      | none =>
        if "a" = "uri" ∨ "a" = "uid" ∨ "a" = "dataset" then none
        else dget [("a", .str "E"), ("uri", .str "U"), ("uid", .str "I"), ("b", .str "B")] "a" :=
  populate_metadata_strips_and_overlays
    [("a", .str "E"), ("uri", .str "U"), ("uid", .str "I"), ("b", .str "B")]
    [("a", .str "S")] (by simp) (by simp) "a"

/-- A non-empty file list always composes a message. -/
theorem gen_new_files_ok (pub_config : PublisherConfig) (new_files : List String)
    (extra_metadata : Option Dict) (h : new_files ≠ []) :
    ∃ m, generate_message_from_new_files pub_config new_files extra_metadata = .ok m := by
  have hne : new_files.isEmpty = false := by
    cases new_files with
    | nil => exact absurd rfl h
    | cons a l => rfl
  unfold generate_message_from_new_files
  rw [hne]
  simp only [Bool.false_eq_true, if_false]
  split
  · exact ⟨_, rfl⟩
  · exact ⟨_, rfl⟩

/-- C8: a single-path group composes a "file" message carrying the path's
basename as `uid` and the path itself as `uri`; a group of two or more paths
composes a "dataset" message whose entries are the `uid`/`uri` pairs of the
paths sorted ascending. -/
theorem compose_file_or_sorted_dataset (pub_config : PublisherConfig)
    (extra_metadata : Option Dict) (new_files : List String) (h : new_files ≠ []) :
    (∀ p, new_files = [p] →
      ∃ m, generate_message_from_new_files pub_config new_files extra_metadata = .ok m
        ∧ m.mtype = "file" ∧ m.subject = pub_config.topic
        ∧ dget m.data "uid" = some (.str (basename p))
        ∧ dget m.data "uri" = some (.str p))
    ∧ (2 ≤ new_files.length →
      ∃ m, generate_message_from_new_files pub_config new_files extra_metadata = .ok m
        ∧ m.mtype = "dataset" ∧ m.subject = pub_config.topic
        ∧ dget m.data "dataset"
            = some (.vlist ((pysorted new_files).map (fun f => .vdict (mkEntry f))))
        ∧ (pysorted new_files).Perm new_files
        ∧ List.Sorted (· ≤ ·) (pysorted new_files)) := by
  constructor
  · intro p hp
    subst hp
    refine ⟨_, rfl, rfl, rfl, ?_, ?_⟩
    · show dget (dset (dset (populate_metadata extra_metadata pub_config.static_metadata)
        "uid" (.str (basename p))) "uri" (.str p)) "uid" = some (.str (basename p))
      rw [dget_dset, if_neg (by decide), dget_dset, if_pos rfl]
    · show dget (dset (dset (populate_metadata extra_metadata pub_config.static_metadata)
        "uid" (.str (basename p))) "uri" (.str p)) "uri" = some (.str p)
      rw [dget_dset, if_pos rfl]
  · intro h2
    have hne2 : new_files.isEmpty = false := by
      cases new_files with
      | nil => simp at h2
      | cons a l => rfl
    have hlen : (new_files.length == 1) = false := by
      have hne1 : new_files.length ≠ 1 := by omega
      simp [hne1]
    have hgen : generate_message_from_new_files pub_config new_files extra_metadata
        = .ok ⟨pub_config.topic, "dataset",
            dset (populate_metadata extra_metadata pub_config.static_metadata) "dataset"
              (.vlist (((pysorted new_files).map mkEntry).map .vdict))⟩ := by
      unfold generate_message_from_new_files
      rw [hne2, hlen]
      simp
    refine ⟨_, hgen, rfl, rfl, ?_, pysorted_perm new_files, pysorted_sorted new_files⟩
    rw [dget_dset, if_pos rfl, List.map_map]
    rfl

/-- C8 witness: the two-path group `["b", "a"]` composes one "dataset"
message with the entries sorted ascending. -/
theorem compose_file_or_sorted_dataset_witness :
    ∃ m, generate_message_from_new_files ⟨none, none, none, [], "/t"⟩ ["b", "a"] (some [])
        = .ok m
      ∧ m.mtype = "dataset" ∧ m.subject = "/t"
      ∧ dget m.data "dataset"
          = some (.vlist ((pysorted ["b", "a"]).map (fun f => .vdict (mkEntry f))))
      ∧ (pysorted ["b", "a"]).Perm ["b", "a"]
      ∧ List.Sorted (· ≤ ·) (pysorted ["b", "a"]) :=
  (compose_file_or_sorted_dataset ⟨none, none, none, [], "/t"⟩ (some []) ["b", "a"]
    (by simp)).2 (by simp)

/-- Composing a singleton group yields the "file" message. -/
theorem gen_file_eq (cfg : PublisherConfig) (mda : Option Dict) (f : String) :
    generate_message_from_new_files cfg [f] mda
      = .ok ⟨cfg.topic, "file",
          dupdate (populate_metadata mda cfg.static_metadata) (mkEntry f)⟩ := rfl

/-- Composing a group of two or more paths yields the "dataset" message over
the sorted paths. -/
theorem gen_dataset_eq (cfg : PublisherConfig) (mda : Option Dict)
    (nf : List String) (h2 : 2 ≤ nf.length) :
    generate_message_from_new_files cfg nf mda
      = .ok ⟨cfg.topic, "dataset",
          dset (populate_metadata mda cfg.static_metadata) "dataset"
            (.vlist ((pysorted nf).map (fun f => .vdict (mkEntry f))))⟩ := by
  have hne : nf.isEmpty = false := by
    cases nf with
    | nil => simp at h2
    | cons a l => rfl
  have hlen : (nf.length == 1) = false := by
    have hne1 : nf.length ≠ 1 := by omega
    simp [hne1]
  unfold generate_message_from_new_files
  rw [hne, hlen]
  simp [List.map_map]
  rfl

/-- The artifacts announced by a singleton "file" message. -/
theorem msgFiles_file_message (topic : String) (md : Dict) (f : String) :
    msgFiles ⟨topic, "file", dupdate md (mkEntry f)⟩ = [f] := by
  show msgFiles ⟨topic, "file", dset (dset md "uid" (.str (basename f))) "uri" (.str f)⟩ = [f]
  unfold msgFiles
  rw [dget_dset]
  simp

/-- The artifacts announced by a "dataset" message built from entry dicts. -/
theorem msgFiles_dataset_message (topic : String) (md : Dict) (fs : List String) :
    msgFiles ⟨topic, "dataset",
      dset md "dataset" (.vlist (fs.map (fun f => .vdict (mkEntry f))))⟩ = fs := by
  unfold msgFiles
  simp only [show (("dataset" : String) == "file") = false from rfl, Bool.false_eq_true,
    if_false]
  rw [dget_dset, if_pos rfl]
  show List.filterMap _ (fs.map (fun f => Value.vdict (mkEntry f))) = fs
  rw [List.filterMap_map]
  have hstep : ∀ f : String,
      ((fun v => match v with
        | Value.vdict d =>
          match dget d "uri" with
          | some (.str x) => some x
          | some (.vdict _) => none
          | some (.vlist _) => none
          | none => none
        | _ => none) ∘ (fun f => Value.vdict (mkEntry f))) f = some f := fun f => rfl
  calc fs.filterMap _ = fs.filterMap some := by
        apply List.filterMap_congr
        intro f hf
        exact hstep f
    _ = fs := List.filterMap_some fs

/-- C6 (amended): when `split_files` is truthy and the patterns produced more
than one match, one "file" message per match is composed, in match order; when
at least one match was found and splitting does not apply, one message
containing all matches is composed; when zero matches were found a
`FileNotFoundError` is raised and no message is composed. -/
theorem split_files_behavior (findall : String → String → List String)
    (cfg : PublisherConfig) (mda : Option Dict) (s : String) (r : RegexSpec)
    (N : List String)
    (hr : cfg.output_files_log_regex = some r)
    (hN : get_newfiles_from_regex_and_logoutput findall r (some s) = .ok N) :
    (cfg.split_files.getD false = true → 1 < N.length →
      ∃ msgs, generate_message_from_log_output findall cfg mda (some s) = .ok msgs
        ∧ msgs.map msgFiles = N.map (fun f => [f]))
    ∧ (N ≠ [] → (cfg.split_files.getD false = false ∨ N.length ≤ 1) →
      ∃ m, generate_message_from_log_output findall cfg mda (some s) = .ok [m]
        ∧ msgFiles m = pysorted N ∧ (pysorted N).Perm N)
    ∧ (N = [] →
      generate_message_from_log_output findall cfg mda (some s)
        = .error .fileNotFoundError) := by
  have hunf : generate_message_from_log_output findall cfg mda (some s)
      = if 1 < N.length && cfg.split_files.getD false then
          N.mapM (fun newfile => generate_message_from_new_files cfg [newfile] mda)
        else
          (generate_message_from_new_files cfg N mda).map (fun m => [m]) := by
    simp only [generate_message_from_log_output, hr, hN]
  refine ⟨?_, ?_, ?_⟩
  · intro hsplit hlen
    rw [hunf, if_pos (by simp [hsplit, hlen])]
    have hfun : (fun newfile => generate_message_from_new_files cfg [newfile] mda)
        = fun f => Except.ok (⟨cfg.topic, "file",
            dupdate (populate_metadata mda cfg.static_metadata) (mkEntry f)⟩ : Msg) := rfl
    rw [hfun, mapM_ok]
    refine ⟨_, rfl, ?_⟩
    rw [List.map_map]
    have hcomp : msgFiles ∘ (fun f => (⟨cfg.topic, "file",
        dupdate (populate_metadata mda cfg.static_metadata) (mkEntry f)⟩ : Msg))
        = fun f => [f] :=
      funext fun f => msgFiles_file_message cfg.topic _ f
    rw [hcomp]
  · intro hNe hcond
    have hcondF : (1 < N.length && cfg.split_files.getD false) = false := by
      rcases hcond with hc | hc
      · simp [hc]
      · have hnlt : ¬ 1 < N.length := Nat.not_lt.mpr hc
        simp [hnlt]
    rw [hunf, if_neg (by simp [hcondF])]
    rcases N with _ | ⟨f, N'⟩
    · exact absurd rfl hNe
    · rcases N' with _ | ⟨f2, N''⟩
      · rw [gen_file_eq]
        refine ⟨_, rfl, ?_, pysorted_perm [f]⟩
        rw [msgFiles_file_message]
        simp [pysorted, pyinsert]
      · rw [gen_dataset_eq cfg mda (f :: f2 :: N'') (by simp)]
        refine ⟨_, rfl, ?_, pysorted_perm _⟩
        exact msgFiles_dataset_message cfg.topic _ (pysorted (f :: f2 :: N''))
  · intro hNil
    subst hNil
    rw [hunf]
    rfl

/-- C6 counterexample: with a regex that matches nothing (and splitting off),
the code raises `FileNotFoundError` instead of composing one message that
contains all (zero) matches. -/
theorem split_files_zero_matches_counterexample :
    generate_message_from_log_output (fun _ _ => [])
        ⟨none, some (.single "rex"), some false, [], "/t"⟩ (some []) (some "log")
      = .error .fileNotFoundError := rfl

/-- C6 witness: two matches with `split_files` on compose two "file"
messages, one per match, in match order. -/
theorem split_files_behavior_witness :
    ∃ msgs, generate_message_from_log_output (fun _ _ => ["b", "a"])
        ⟨none, some (.single "rex"), some true, [], "/t"⟩ (some []) (some "log")
        = .ok msgs
      ∧ msgs.map msgFiles = ["b", "a"].map (fun f => [f]) :=
  (split_files_behavior (fun _ _ => ["b", "a"])
    ⟨none, some (.single "rex"), some true, [], "/t"⟩ (some []) "log"
    (.single "rex") ["b", "a"] rfl rfl).1 rfl (by simp)

/-- C5 counterexample: a "file" notification carrying a `uid` key: the
command template `run {uid}` resolves successfully using the `uid` value (the
echoing child shows `run U` in the captured output), whereas resolving it
against the metadata with all of `uri`, `uid` and `dataset` excluded — what
the claim states — would raise `KeyError("uid")`. -/
theorem substitution_uid_available_counterexample :
    run_on_single_message (fun c _ => [c]) [.lit "run ", .field "uid"]
        ⟨"t", "file", [("uri", .str "/d/a"), ("uid", .str "U")]⟩
      = .ok (some "\nrun U", [("uri", .str "/d/a"), ("uid", .str "U")])
    ∧ pyformat [.lit "run ", .field "uid"]
        (dremove (dremove (dremove [("uri", .str "/d/a"), ("uid", .str "U")] "uri") "uid")
          "dataset")
      = .error (.keyError "uid") := ⟨rfl, rfl⟩

/-- C5 (amended): the command template is resolved against the notification's
metadata with only the key consumed for file-list resolution removed — `uri`
for a "file"-shaped notification, `dataset` for a dataset-shaped one; the
`uid` key (and the respectively unconsumed key) remains visible to
placeholder substitution. -/
theorem substitution_excludes_only_consumed_key
    (proc : String → List Value → List String) (command : Template) (m : Msg) :
    (∀ v, dget m.data "uri" = some v →
      (run_on_single_message proc command m
        = match get_command_to_call command (dremove m.data "uri") with
          | .ok c => .ok (run_on_files proc c [v], m.data)
          | .error e => .error e)
      ∧ dget (dremove m.data "uri") "uid" = dget m.data "uid"
      ∧ dget (dremove m.data "uri") "dataset" = dget m.data "dataset")
    ∧ (dget m.data "uri" = none →
      ∀ entries, dget m.data "dataset" = some (.vlist entries) →
      (run_on_single_message proc command m
        = match resolve_dataset_files entries with
          | .ok files =>
            match get_command_to_call command (dremove m.data "dataset") with
            | .ok c => .ok (run_on_files proc c files, m.data)
            | .error e => .error e
          | .error e => .error e)
      ∧ dget (dremove m.data "dataset") "uid" = dget m.data "uid"
      ∧ dget (dremove m.data "dataset") "uri" = dget m.data "uri") := by
  constructor
  · intro v hv
    refine ⟨?_, ?_, ?_⟩
    · unfold run_on_single_message
      rw [hv]
    · rw [dget_dremove, if_neg (by decide)]
    · rw [dget_dremove, if_neg (by decide)]
  · intro hu entries hd
    refine ⟨?_, ?_, ?_⟩
    · unfold run_on_single_message
      rw [hu, hd]
    · rw [dget_dremove, if_neg (by decide)]
    · rw [dget_dremove, if_neg (by decide)]

/-- C5 witness: a "file" notification whose metadata still carries `uid`
after `uri` is popped; the substitution map is exactly the metadata minus
`uri`. -/
theorem substitution_excludes_only_consumed_key_witness :
    (run_on_single_message (fun c _ => [c]) [.field "uid"]
        ⟨"t", "file", [("uri", .str "/a"), ("uid", .str "x")]⟩
      = match get_command_to_call [.field "uid"]
          (dremove [("uri", Value.str "/a"), ("uid", Value.str "x")] "uri") with
        | .ok c => .ok (run_on_files (fun c _ => [c]) c [.str "/a"],
            [("uri", Value.str "/a"), ("uid", Value.str "x")])
        | .error e => .error e)
    ∧ dget (dremove [("uri", Value.str "/a"), ("uid", Value.str "x")] "uri") "uid"
        = dget [("uri", Value.str "/a"), ("uid", Value.str "x")] "uid"
    ∧ dget (dremove [("uri", Value.str "/a"), ("uid", Value.str "x")] "uri") "dataset"
        = dget [("uri", Value.str "/a"), ("uid", Value.str "x")] "dataset" :=
  (substitution_excludes_only_consumed_key (fun c _ => [c]) [.field "uid"]
    ⟨"t", "file", [("uri", .str "/a"), ("uid", .str "x")]⟩).1 (.str "/a") rfl

/-- C1: with BOTH `expected_files` and `output_files_log_regex` configured,
`generate_message` composes its message from the regex match on the log
output (pattern detection), consumes no glob scan and leaves the baseline
untouched — even though the filesystem ("snapnew") holds a new file the
snapshot diff would have announced. Pattern detection, not snapshot
detection, takes precedence, contradicting the claim and the module
docstring ("If both are present, expected_files will take precedence"). -/
theorem both_configured_pattern_takes_precedence :
    generate_message (fun r _ => if r = "rex" then ["out.nc"] else [])
        (fun _ p => if p = "pat" then ["old", "snapnew"] else []) 0
        ⟨some "pat", some (.single "rex"), none, [], "/t"⟩
        (some []) (some "log") ["old"]
      = (.ok ([⟨"/t", "file", [("uid", .str "out.nc"), ("uri", .str "out.nc")]⟩],
          ["old"]), 0) := rfl

/-- C2 counterexample: the first notification's template references a
`missing` field absent from its metadata; the resulting KeyError terminates
the whole loop with an error — the second notification (which does carry the
field) is never processed, and the pipeline does terminate with an error. -/
theorem missing_placeholder_terminates_loop_counterexample :
    run_and_publish_loop (fun _ _ => []) (fun _ _ => []) (fun _ _ => [])
        [.field "missing"] ⟨none, some (.single "rex"), none, [], "/t"⟩
        [⟨"a", "file", [("uri", .str "/f1")]⟩,
         ⟨"b", "file", [("uri", .str "/f2"), ("missing", .str "v")]⟩]
        ⟨0, [], []⟩
      = .error (.keyError "missing") := rfl

/-- C2 (amended): a template placeholder absent from an accepted "file"
notification's metadata makes `run_on_single_message` raise a KeyError; the
error surfaces at the driver's `for` statement, outside its `try`, so the
loop terminates with that error and the remaining notifications are not
processed. -/
theorem missing_placeholder_propagates
    (findall : String → String → List String) (fs : Nat → String → List String)
    (proc : String → List Value → List String) (command : Template)
    (cfg : PublisherConfig) (m : Msg) (rest : List Msg) (st : DriverState)
    (v : Value) (e : PyError)
    (hty : m.mtype = "file")
    (hv : dget m.data "uri" = some v)
    (hfmt : get_command_to_call command (dremove m.data "uri") = .error e) :
    run_and_publish_loop findall fs proc command cfg (m :: rest) st = .error e := by
  have hacc : accepted_message m = true := by
    simp [accepted_message, hty]
  unfold run_and_publish_loop
  rw [if_pos hacc]
  unfold run_on_single_message
  rw [hv, hfmt]

/-- C2 witness: a concrete accepted notification with a missing placeholder
terminates the loop with the KeyError. -/
theorem missing_placeholder_propagates_witness :
    run_and_publish_loop (fun _ _ => []) (fun _ _ => []) (fun _ _ => [])
        [.field "k"] ⟨none, some (.single "rex"), none, [], "/t"⟩
        [⟨"a", "file", [("uri", .str "/f1")]⟩] ⟨0, [], []⟩
      = .error (.keyError "k") :=
  missing_placeholder_propagates (fun _ _ => []) (fun _ _ => []) (fun _ _ => [])
    [.field "k"] ⟨none, some (.single "rex"), none, [], "/t"⟩
    ⟨"a", "file", [("uri", .str "/f1")]⟩ [] ⟨0, [], []⟩ (.str "/f1") (.keyError "k")
    rfl rfl rfl

/-- C3 counterexample: an accepted dataset notification with an empty dataset
sequence launches no command, but is not silently skipped: with pattern
detection configured the driver decodes the `None` output and raises a
`TypeError` that terminates the loop. -/
theorem empty_dataset_not_silently_skipped_counterexample :
    run_and_publish_loop (fun _ _ => ["x"]) (fun _ _ => []) (fun c _ => [c])
        [.lit "cmd"] ⟨none, some (.single "rex"), none, [], "/t"⟩
        [⟨"a", "dataset", [("dataset", .vlist [])]⟩] ⟨0, [], []⟩
      = .error .typeError := rfl

/-- C3 (amended): a notification resolving to an empty file list launches no
external command — `run_on_files` answers `None` without consulting the
child-process oracle — but a `(None, metadata)` result is still yielded to
the driver, and when a pattern regex is configured the driver raises a
`TypeError` decoding that `None`, so the notification is not silently
skipped. -/
theorem empty_file_list_result_still_flows
    (findall : String → String → List String) (fs : Nat → String → List String)
    (proc : String → List Value → List String) (command : Template)
    (cfg : PublisherConfig) (st : DriverState) (m : Msg) (c : String) (rex : String)
    (hu : dget m.data "uri" = none)
    (hd : dget m.data "dataset" = some (.vlist []))
    (hc : get_command_to_call command (dremove m.data "dataset") = .ok c)
    (hrex : cfg.output_files_log_regex = some (.single rex)) :
    run_on_single_message proc command m = .ok (none, m.data)
    ∧ run_on_files proc c [] = none
    ∧ process_one findall fs cfg st (none, m.data) = .error .typeError := by
  refine ⟨?_, rfl, ?_⟩
  · unfold run_on_single_message
    rw [hu, hd, hc]
    rfl
  · unfold process_one generate_message generate_message_from_log_output
    rw [hrex]
    rfl

/-- C3 witness: the concrete empty-dataset notification with pattern
detection configured. -/
theorem empty_file_list_result_still_flows_witness :
    run_on_single_message (fun c _ => [c]) [.lit "cmd"]
        ⟨"a", "dataset", [("dataset", .vlist [])]⟩
        = .ok (none, [("dataset", Value.vlist [])])
    ∧ run_on_files (fun c _ => [c]) "cmd" [] = none
    ∧ process_one (fun _ _ => ["x"]) (fun _ _ => [])
        ⟨none, some (.single "rex"), none, [], "/t"⟩
        ⟨0, [], []⟩ (none, [("dataset", Value.vlist [])]) = .error .typeError :=
  empty_file_list_result_still_flows (fun _ _ => ["x"]) (fun _ _ => [])
    (fun c _ => [c]) [.lit "cmd"] ⟨none, some (.single "rex"), none, [], "/t"⟩
    ⟨0, [], []⟩ ⟨"a", "dataset", [("dataset", .vlist [])]⟩ "cmd" "rex" rfl rfl rfl rfl

/-- C4: in Snapshot mode (no regex configured), a detection round that finds
at least one new file returns, as the baseline for the next notification,
the result of a second glob scan taken after the detection scan; a round
that finds no new files raises `FileNotFoundError`, which the driver
catches, leaving the baseline (and published list) unchanged. -/
theorem snapshot_baseline_refresh
    (findall : String → String → List String) (fs : Nat → String → List String)
    (cfg : PublisherConfig) (t : Nat) (mda : Option Dict) (log_output : Option String)
    (pre : List String) (st : DriverState) (res : Option String × Dict)
    (hr : cfg.output_files_log_regex = none) :
    (find_new_files (fs t) cfg pre ≠ [] →
      ∃ m, generate_message findall fs t cfg mda log_output pre
          = (.ok ([m], check_existing_files (fs (t + 1)) cfg), t + 2))
    ∧ (find_new_files (fs t) cfg pre = [] →
      generate_message findall fs t cfg mda log_output pre
        = (.error .fileNotFoundError, t + 1))
    ∧ (find_new_files (fs st.t) cfg st.preexisting ≠ [] →
      ∃ m, process_one findall fs cfg st res
          = .ok ⟨st.t + 2, check_existing_files (fs (st.t + 1)) cfg, st.published ++ [m]⟩)
    ∧ (find_new_files (fs st.t) cfg st.preexisting = [] →
      process_one findall fs cfg st res = .ok ⟨st.t + 1, st.preexisting, st.published⟩) := by
  have hlo : ∀ (mda : Option Dict) (log : Option String),
      generate_message_from_log_output findall cfg mda log
        = .error (.keyError "output_files_log_regex") := by
    intro mda log
    unfold generate_message_from_log_output
    rw [hr]
  have key : ∀ (t : Nat) (pre : List String) (mda : Option Dict) (log : Option String),
      (find_new_files (fs t) cfg pre ≠ [] →
        ∃ m, generate_message findall fs t cfg mda log pre
            = (.ok ([m], check_existing_files (fs (t + 1)) cfg), t + 2))
      ∧ (find_new_files (fs t) cfg pre = [] →
        generate_message findall fs t cfg mda log pre
          = (.error .fileNotFoundError, t + 1)) := by
    intro t pre mda log
    constructor
    · intro hne
      obtain ⟨m, hm⟩ := gen_new_files_ok cfg (find_new_files (fs t) cfg pre) mda hne
      have hexp : generate_message_from_expected_files (fs t) cfg mda (some pre)
          = .ok m := hm
      refine ⟨m, ?_⟩
      simp only [generate_message, hlo, hexp]
    · intro hemp
      have hexp : generate_message_from_expected_files (fs t) cfg mda (some pre)
          = .error .fileNotFoundError := by
        show generate_message_from_new_files cfg (find_new_files (fs t) cfg pre) mda = _
        rw [hemp]
        rfl
      simp only [generate_message, hlo, hexp]
  refine ⟨(key t pre mda log_output).1, (key t pre mda log_output).2, ?_, ?_⟩
  · intro hne
    obtain ⟨m, hm⟩ := (key st.t st.preexisting (some res.2) res.1).1 hne
    refine ⟨m, ?_⟩
    unfold process_one
    rw [hm]
  · intro hemp
    have hm := (key st.t st.preexisting (some res.2) res.1).2 hemp
    unfold process_one
    rw [hm]

/-- C4 witness: with the baseline `["old"]` and the scan at time 0 showing
`["old", "new1"]`, detection finds `new1` and the returned baseline is the
(later, refreshed) scan at time 1. -/
theorem snapshot_baseline_refresh_witness :
    ∃ m, generate_message (fun _ _ => [])
        (fun t _ => if t = 0 then ["old", "new1"] else ["old", "new1", "later"]) 0
        ⟨some "pat", none, none, [], "/t"⟩ (some []) (some "log") ["old"]
      = (.ok ([m], check_existing_files
          ((fun t _ => if t = 0 then ["old", "new1"] else ["old", "new1", "later"])
            ((0 : Nat) + 1)) ⟨some "pat", none, none, [], "/t"⟩), 0 + 2) :=
  (snapshot_baseline_refresh (fun _ _ => [])
    (fun t _ => if t = 0 then ["old", "new1"] else ["old", "new1", "later"])
    ⟨some "pat", none, none, [], "/t"⟩ 0 (some []) (some "log") ["old"]
    ⟨0, ["old"], []⟩ (some "log", []) rfl).1 (by decide)
